import Mathlib

/-!
Verification of the IFCT nutrition-dashboard loader, selection and
presentation logic (src/app.py) against its specification.

The embedding models a pandas DataFrame row as a `Record`:
string-typed columns are `Option String` (with `none` standing for a
missing value / NaN), and the numeric-typed columns are an association
list from column name to `Option ℚ` (`none` standing for NaN).  The
loader steps of `load_data` (Group derivation from the first character
of `code`, `fillna` of the Group, `fillna(0)` of the numeric columns),
the group filter, the item selectbox options, the record lookup
`df[df['name'] == selected_item].iloc[0]`, and the per-field access
pattern of the six presentation tabs are each translated directly from
the source.
-/

/-- The fixed 19-entry `code_map` dictionary of `load_data`
(src/app.py lines 38-46): first letter of the IFCT code to group label. -/
def code_map : Char → Option String
  | 'A' => some "Cereals & Millets"
  | 'B' => some "Grain Legumes"
  | 'C' => some "Green Leafy Veg"
  | 'D' => some "Other Veg"
  | 'E' => some "Fruits"
  | 'F' => some "Roots & Tubers"
  | 'G' => some "Condiments & Spices"
  | 'H' => some "Nuts & Oil Seeds"
  | 'I' => some "Sugars"
  | 'J' => some "Mushrooms"
  | 'K' => some "Misc"
  | 'L' => some "Milk & Dairy"
  | 'M' => some "Egg Products"
  | 'N' => some "Poultry"
  | 'O' => some "Animal Meat"
  | 'P' => some "Marine Fish"
  | 'Q' => some "Marine Shellfish"
  | 'R' => some "Marine Mollusks"
  | 'S' => some "Freshwater Fish"
  | _ => none

/-- Python `astype(str)` on one cell: a missing value (NaN) becomes the
literal string "nan"; a string stays itself. -/
def pyStr : Option String → String
  | none => "nan"
  | some s => s

/-- Pandas `.str[0].str.upper()` on one cell: the first character of the
string, uppercased; an empty string yields NaN (`none`). -/
def upperFirst (s : String) : Option Char :=
  s.data.head?.map Char.toUpper

/-- The Group derivation of `load_data` (src/app.py lines 49-50):
`df['code'].astype(str).str[0].str.upper().map(code_map).fillna('Other')`. -/
def deriveGroup (code : Option String) : String :=
  ((upperFirst (pyStr code)).bind code_map).getD "Other"

/-- One row of the DataFrame.  `code`, `name`, `scie`, `regn` are the
object-typed (string) columns; `nums` is the association list of the
numeric-typed columns (`none` = NaN); `groupCode` and `group` are the
derived columns `Group_Code` and `Group` (absent, i.e. `none`, in a raw
row; filled by normalization). -/
structure Record where
  code : Option String
  name : Option String
  scie : Option String
  regn : Option String
  nums : List (String × Option ℚ)
  groupCode : Option Char
  group : Option String
deriving DecidableEq, Repr

/-- The numeric cleaning step of `load_data` (src/app.py lines 53-54):
`df[numeric_cols] = df[numeric_cols].fillna(0)` applied to one row:
every numeric cell keeps its value, a NaN becomes 0. -/
def fillNums (ns : List (String × Option ℚ)) : List (String × Option ℚ) :=
  ns.map (fun p => (p.1, some (p.2.getD 0)))

/-- The per-row normalization performed by `load_data`
(src/app.py lines 49-54): derive `Group_Code` and `Group` from `code`,
fill the NaNs of the numeric columns with 0; the object-typed columns
are untouched. -/
def normalizeRecord (r : Record) : Record :=
  { r with
    groupCode := upperFirst (pyStr r.code),
    group := some (deriveGroup r.code),
    nums := fillNums r.nums }

/-- Normalization of the whole table. -/
def normalizeDf (df : List Record) : List Record :=
  df.map normalizeRecord

/-- The `load_data` function (src/app.py lines 32-60): the source is
`some rows` when `extracted_ifct_data.csv` can be read and `none` when
it is absent (`FileNotFoundError`).  Returns the Dataset together with
the flag of whether `st.error` was shown; on failure the Dataset is
empty and the error notice is shown. -/
def load_data (src : Option (List Record)) : List Record × Bool :=
  match src with
  | some rows => (normalizeDf rows, false)
  | none => ([], true)

/-- The group filter (src/app.py lines 97-100): `"All"` keeps the whole
table, any other choice keeps the rows whose `Group` equals it. -/
def filterByGroup (df : List Record) (g : String) : List Record :=
  if g = "All" then df else df.filter (fun r => r.group == some g)

/-- Pandas `Series.unique`: the distinct values in first-occurrence
order. -/
def uniqueFirst {α : Type} [DecidableEq α] (l : List α) : List α :=
  l.foldl (fun acc x => if x ∈ acc then acc else acc ++ [x]) []

/-- The options of the item selectbox (src/app.py line 102):
`filtered_df['name'].unique()`. -/
def uniqueNames (df : List Record) : List (Option String) :=
  uniqueFirst (df.map (fun r => r.name))

/-- Outcome of the main-content block (src/app.py lines 108-109). -/
inductive RenderOutcome where
  | noRender
  | shown (r : Record)
  | crash
deriving DecidableEq, Repr

/-- The selection resolution of src/app.py lines 108-109:
`if selected_item:` guards only a falsy selection (`None` from an empty
selectbox, or an empty string); then
`item = df[df['name'] == selected_item].iloc[0]` looks the name up in
the FULL table `df` (not in `filtered_df`) and takes the first match;
`.iloc[0]` on an empty selection raises `IndexError` (`crash`). -/
def resolveRender (df : List Record) (sel : Option String) : RenderOutcome :=
  match sel with
  | none => RenderOutcome.noRender
  | some s =>
    if s = "" then RenderOutcome.noRender
    else
      match (df.filter (fun r => r.name == some s)).head? with
      | some r => RenderOutcome.shown r
      | none => RenderOutcome.crash

/-- What is visible on the page: the `st.error` notice of `load_data`,
the sidebar (title, caption, the two selectboxes), the options offered
by the item selectbox, and the main content; everything but the error
notice sits under the `if not df.empty:` guard (src/app.py line 87). -/
structure AppView where
  errorShown : Bool
  sidebarShown : Bool
  itemOptions : List (Option String)
  mainShown : Bool
deriving DecidableEq, Repr

/-- The page produced for a given source and group filter
(src/app.py lines 62, 87-102). -/
def appView (src : Option (List Record)) (g : String) : AppView :=
  let p := load_data src
  { errorShown := p.2,
    sidebarShown := !p.1.isEmpty,
    itemOptions := if p.1.isEmpty then [] else uniqueNames (filterByGroup p.1 g),
    mainShown := !p.1.isEmpty }

/-- How a nutrient field is read by the presentation code: `direct` is
plain indexing `item['k']` (raises `KeyError` when the column is
absent), `getDefault` is `item.get('k', 0)`. -/
inductive Access where
  | direct
  | getDefault
deriving DecidableEq, Repr

/-- Every numeric field referenced by the six tabs and the header
(src/app.py lines 115-233), with the access pattern the code uses
for it. -/
def presenterFields : List (String × Access) :=
  [("enerc", Access.direct),
   ("protcnt", Access.direct), ("choavldf", Access.direct),
   ("fatce", Access.direct), ("fibtg", Access.direct),
   ("starch", Access.getDefault), ("fsugar", Access.getDefault),
   ("fibsol", Access.getDefault), ("fibins", Access.getDefault),
   ("ca", Access.direct), ("mg", Access.direct), ("p", Access.direct),
   ("na", Access.direct), ("k", Access.direct),
   ("fe", Access.direct), ("zn", Access.direct), ("cu", Access.direct),
   ("mn", Access.direct),
   ("vitc", Access.direct), ("folsum", Access.getDefault),
   ("thia", Access.direct), ("ribf", Access.direct), ("nia", Access.direct),
   ("pantac", Access.getDefault), ("vitb6c", Access.getDefault),
   ("retol", Access.getDefault), ("ergcal", Access.getDefault),
   ("chocal", Access.getDefault), ("vite", Access.getDefault),
   ("tocpha", Access.getDefault), ("vitk1", Access.getDefault),
   ("vitk2", Access.getDefault),
   ("fasat", Access.getDefault), ("fams", Access.getDefault),
   ("fapu", Access.getDefault), ("cholc", Access.getDefault),
   ("ala", Access.getDefault),
   ("arg", Access.getDefault), ("his", Access.getDefault),
   ("ile", Access.getDefault), ("leu", Access.getDefault),
   ("lys", Access.getDefault), ("met", Access.getDefault),
   ("phe", Access.getDefault), ("thr", Access.getDefault),
   ("trp", Access.getDefault), ("val", Access.getDefault),
   ("polyph", Access.getDefault), ("gallac", Access.getDefault),
   ("querce", Access.getDefault),
   ("phytac", Access.getDefault), ("oxalt", Access.getDefault),
   ("sapon", Access.getDefault)]

/-- Reading one field of the resolved record for rendering.  The outer
`Option` is success: `none` means the read raises (`KeyError` on direct
indexing of an absent column) and rendering fails.  The inner
`Option ℚ` is the cell value, `none` standing for NaN. -/
def renderValue (r : Record) (k : String) : Access → Option (Option ℚ)
  | Access.direct => r.nums.lookup k
  | Access.getDefault => some ((r.nums.lookup k).getD (some 0))

/-- A raw Fruits row: code "E01", name "Apple". -/
def recApple : Record :=
  { code := some "E01", name := some "Apple", scie := none, regn := none,
    nums := [], groupCode := none, group := none }

/-- A raw Other-Veg row: code "D01", name "Carrot". -/
def recCarrot : Record :=
  { code := some "D01", name := some "Carrot", scie := none, regn := none,
    nums := [], groupCode := none, group := none }

/-- A raw Other-Veg row named "Mango" (code "D02"), placed before the
Fruits "Mango" in source order. -/
def recMangoD : Record :=
  { code := some "D02", name := some "Mango", scie := none, regn := none,
    nums := [], groupCode := none, group := none }

/-- A raw Fruits row named "Mango" (code "E02"). -/
def recMangoE : Record :=
  { code := some "E02", name := some "Mango", scie := none, regn := none,
    nums := [], groupCode := none, group := none }

/-- A raw row with a missing (NaN) `code` cell. -/
def recNoCode : Record :=
  { code := none, name := some "X", scie := none, regn := none,
    nums := [], groupCode := none, group := none }

/-- A raw row carrying a single NaN numeric cell `protcnt`. -/
def recW : Record :=
  { code := some "A01", name := some "W", scie := none, regn := none,
    nums := [("protcnt", none)], groupCode := none, group := none }

/-- The two-row Dataset Apple/Carrot after loading. -/
def dfAC : List Record := normalizeDf [recApple, recCarrot]

/-- The two-row Dataset with the duplicated name "Mango" after loading. -/
def dfMango : List Record := normalizeDf [recMangoD, recMangoE]

/-- Head of a filtered list: the element satisfies the predicate and is
the first element of the list that does, i.e. the list splits as
`l1 ++ r0 :: l2` with no match in `l1`. -/
theorem filter_head_decomp {p : Record → Bool} :
    ∀ {l : List Record} {r0 : Record}, (l.filter p).head? = some r0 →
      p r0 = true ∧ ∃ l1 l2, l = l1 ++ r0 :: l2 ∧ ∀ r ∈ l1, p r = false := by
  intro l
  induction l with
  | nil => intro r0 h; simp at h
  | cons a t ih =>
    intro r0 h
    rw [List.filter_cons] at h
    by_cases hp : p a = true
    · rw [if_pos hp] at h
      simp only [List.head?_cons, Option.some.injEq] at h
      subst h
      exact ⟨hp, [], t, rfl, by simp⟩
    · rw [if_neg hp] at h
      obtain ⟨hp0, l1, l2, hl, hl1⟩ := ih h
      refine ⟨hp0, a :: l1, l2, by rw [hl]; rfl, ?_⟩
      intro r hr
      rcases List.mem_cons.mp hr with h1 | h1
      · subst h1; exact Bool.eq_false_iff.mpr hp
      · exact hl1 r h1

/-- C3: for every record whose code has first character `c`, the derived
group is the `code_map` image of the uppercased `c` when that character
is mapped, and the fallback "Other" otherwise; and the table maps
exactly 19 letters. -/
theorem deriveGroup_maps_first_char (s : String) (c : Char)
    (h : s.data.head? = some c) :
    (∀ l, code_map c.toUpper = some l → deriveGroup (some s) = l) ∧
    (code_map c.toUpper = none → deriveGroup (some s) = "Other") ∧
    ("ABCDEFGHIJKLMNOPQRSTUVWXYZ".data.filter
      (fun a => (code_map a).isSome)).length = 19 := by
  refine ⟨?_, ?_, by decide⟩
  · intro l hl
    simp [deriveGroup, pyStr, upperFirst, h, hl]
  · intro hl
    simp [deriveGroup, pyStr, upperFirst, h, hl]

/-- Witness for C3: code "P014" derives "Marine Fish", code "Z999"
derives the fallback "Other". -/
theorem deriveGroup_maps_first_char_witness :
    deriveGroup (some "P014") = "Marine Fish" ∧
    deriveGroup (some "Z999") = "Other" :=
  ⟨(deriveGroup_maps_first_char "P014" 'P' (by decide)).1 "Marine Fish" (by decide),
   (deriveGroup_maps_first_char "Z999" 'Z' (by decide)).2.1 (by decide)⟩

/-- C4: after normalization every record's derived Group is non-null,
and every numeric cell holds a definite value that is either the
original number of the raw row or the neutral default 0 filled in for a
NaN. -/
theorem normalize_invariant (r : Record) :
    ((normalizeRecord r).group).isSome = true ∧
    ∀ p, p ∈ (normalizeRecord r).nums →
      ∃ q, p.2 = some q ∧
        ((p.1, some q) ∈ r.nums ∨ (q = 0 ∧ (p.1, none) ∈ r.nums)) := by
  constructor
  · simp [normalizeRecord]
  · intro p hp
    simp only [normalizeRecord, fillNums, List.mem_map] at hp
    obtain ⟨p0, hp0, hf⟩ := hp
    subst hf
    cases h2 : p0.2 with
    | some q =>
      refine ⟨q, by simp [h2], Or.inl ?_⟩
      have he : (p0.1, some q) = p0 := by rw [← h2]
      simpa [he] using hp0
    | none =>
      refine ⟨0, by simp [h2], Or.inr ⟨rfl, ?_⟩⟩
      have he : (p0.1, (none : Option ℚ)) = p0 := by rw [← h2]
      simpa [he] using hp0

/-- Witness for C4: the row `recW` carries a NaN `protcnt`; after
normalization its Group is present and the cell `("protcnt", some 0)`
of the normalized row is accounted for by the NaN-fill branch. -/
theorem normalize_invariant_witness :
    ((normalizeRecord recW).group).isSome = true ∧
    ∃ q, (some (0 : ℚ)) = some q ∧
      ((("protcnt" : String), some q) ∈ recW.nums ∨
        (q = 0 ∧ ("protcnt", (none : Option ℚ)) ∈ recW.nums)) :=
  ⟨(normalize_invariant recW).1,
   (normalize_invariant recW).2 ("protcnt", some 0) (by decide)⟩

/-- C5: the category filter with the sentinel "All" is the whole
Dataset; with any other choice it keeps exactly the records whose
derived Group equals the choice. -/
theorem filterByGroup_correct (df : List Record) (g : String) :
    filterByGroup df "All" = df ∧
    (g ≠ "All" → ∀ r, r ∈ filterByGroup df g ↔ r ∈ df ∧ r.group = some g) := by
  constructor
  · simp [filterByGroup]
  · intro hg r
    simp [filterByGroup, hg, List.mem_filter]

/-- Witness for C5: on the Apple/Carrot Dataset, "All" keeps everything
and membership under the "Fruits" filter is the stated conjunction. -/
theorem filterByGroup_correct_witness :
    filterByGroup dfAC "All" = dfAC ∧
    ((normalizeRecord recApple) ∈ filterByGroup dfAC "Fruits" ↔
      (normalizeRecord recApple) ∈ dfAC ∧
      (normalizeRecord recApple).group = some "Fruits") :=
  ⟨(filterByGroup_correct dfAC "Fruits").1,
   (filterByGroup_correct dfAC "Fruits").2 (by decide) (normalizeRecord recApple)⟩

/-- Filling the NaNs of the numeric cells twice is the same as filling
them once. -/
theorem fillNums_idem (ns : List (String × Option ℚ)) :
    fillNums (fillNums ns) = fillNums ns := by
  induction ns with
  | nil => rfl
  | cons p t ih => simp [fillNums]

/-- One row already normalized is unchanged by a second normalization
pass. -/
theorem normalizeRecord_idem (r : Record) :
    normalizeRecord (normalizeRecord r) = normalizeRecord r := by
  simp [normalizeRecord, fillNums_idem]

/-- C8: the loader's normalization (Group derivation, Group fillna,
numeric fillna(0)) is idempotent on whole Datasets: a second pass
changes no field. -/
theorem normalize_idempotent :
    ∀ df : List Record, normalizeDf (normalizeDf df) = normalizeDf df := by
  intro df
  induction df with
  | nil => rfl
  | cons r t ih =>
    simp only [normalizeDf, List.map_cons, List.map_map] at ih ⊢
    rw [List.cons.injEq]
    exact ⟨normalizeRecord_idem r, ih⟩

/-- C9: a missing (NaN) `code` is coerced by `astype(str)` to the
string "nan", whose uppercased first character is the letter N, so the
record is grouped as "Poultry" and not by the "Other" fallback. -/
theorem missing_code_maps_to_poultry (r : Record) (h : r.code = none) :
    (normalizeRecord r).groupCode = some 'N' ∧
    (normalizeRecord r).group = some "Poultry" ∧
    (normalizeRecord r).group ≠ some "Other" := by
  have h1 : upperFirst (pyStr none) = some 'N' := by decide
  have h2 : deriveGroup none = "Poultry" := by decide
  refine ⟨?_, ?_, ?_⟩ <;> simp [normalizeRecord, h, h1, h2]

/-- Witness for C9: the concrete row `recNoCode` with a NaN code lands
in "Poultry". -/
theorem missing_code_maps_to_poultry_witness :
    (normalizeRecord recNoCode).groupCode = some 'N' ∧
    (normalizeRecord recNoCode).group = some "Poultry" ∧
    (normalizeRecord recNoCode).group ≠ some "Other" :=
  missing_code_maps_to_poultry recNoCode rfl

/-- C10: normalization leaves every object-typed (string) column of a
row unchanged — `code`, `name`, `scie`, `regn` are byte-for-byte those
of the raw row, so a missing string cell survives as missing — and only
writes the derived columns `Group_Code` and `Group` and the NaN-filled
numeric columns. -/
theorem normalizeRecord_frame (r : Record) :
    (normalizeRecord r).code = r.code ∧
    (normalizeRecord r).name = r.name ∧
    (normalizeRecord r).scie = r.scie ∧
    (normalizeRecord r).regn = r.regn ∧
    (normalizeRecord r).groupCode = upperFirst (pyStr r.code) ∧
    (normalizeRecord r).group = some (deriveGroup r.code) ∧
    (normalizeRecord r).nums = fillNums r.nums :=
  ⟨rfl, rfl, rfl, rfl, rfl, rfl, rfl⟩

/-- The group filter of an empty table is empty, whatever the choice. -/
theorem filterByGroup_nil (g : String) : filterByGroup [] g = [] := by
  unfold filterByGroup
  split <;> rfl

/-- C7: when the backing file is absent, `load_data` returns an empty
Dataset with the error notice shown; the page then shows no sidebar and
no main content, the item selectbox formula offers no options, and the
error notice is the only visible output. -/
theorem missing_file_yields_empty_and_error :
    ∀ g : String,
      load_data none = ([], true) ∧
      appView none g = { errorShown := true, sidebarShown := false,
                         itemOptions := [], mainShown := false } ∧
      uniqueNames (filterByGroup (load_data none).1 g) = [] := by
  intro g
  refine ⟨rfl, rfl, ?_⟩
  show uniqueNames (filterByGroup [] g) = []
  rw [filterByGroup_nil g]
  rfl

/-- Counterexample to C1: on the Apple/Carrot Dataset under the
"Other Veg" filter, the name "Apple" is NOT among the candidate set's
names, yet resolution silently shows the Apple record — a record from
outside the candidate set — instead of a no-op render; and the name
"Banana", absent from the whole Dataset, makes resolution crash
(`IndexError` from `.iloc[0]` on an empty selection) instead of a
no-op render. -/
theorem selection_outside_candidate_returns_record :
    (some "Apple" ∉ uniqueNames (filterByGroup dfAC "Other Veg")) ∧
    resolveRender dfAC (some "Apple") =
      RenderOutcome.shown (normalizeRecord recApple) ∧
    ((normalizeRecord recApple) ∉ filterByGroup dfAC "Other Veg") ∧
    (some "Banana" ∉ uniqueNames (filterByGroup dfAC "Other Veg")) ∧
    resolveRender dfAC (some "Banana") = RenderOutcome.crash := by
  decide

/-- C1 as amended: the only no-op renders are the falsy selections
(`None` from an empty selectbox, or the empty string); a chosen name
that matches no record of the FULL Dataset makes resolution crash
(uncaught `IndexError`), and a chosen name outside the candidate set
but present in the Dataset silently shows a record (see the
counterexample) — there is no `SelectionNotFound` guard. -/
theorem resolveRender_noop_and_crash (df : List Record) (s : String) :
    resolveRender df none = RenderOutcome.noRender ∧
    resolveRender df (some "") = RenderOutcome.noRender ∧
    (s ≠ "" → (∀ r ∈ df, r.name ≠ some s) →
      resolveRender df (some s) = RenderOutcome.crash) := by
  refine ⟨rfl, rfl, ?_⟩
  intro hs hnone
  have hnil : df.filter (fun r => r.name == some s) = [] := by
    rw [List.filter_eq_nil_iff]
    intro r hr
    simp [hnone r hr]
  simp only [resolveRender]
  rw [if_neg hs, hnil]
  rfl

/-- Witness for the amended C1 on the Apple/Carrot Dataset with the
name "Banana". -/
theorem resolveRender_noop_and_crash_witness :
    resolveRender dfAC none = RenderOutcome.noRender ∧
    resolveRender dfAC (some "") = RenderOutcome.noRender ∧
    resolveRender dfAC (some "Banana") = RenderOutcome.crash :=
  ⟨(resolveRender_noop_and_crash dfAC "Banana").1,
   (resolveRender_noop_and_crash dfAC "Banana").2.1,
   (resolveRender_noop_and_crash dfAC "Banana").2.2 (by decide) (by decide)⟩

/-- Counterexample to C2: two records share the name "Mango"; the
earlier one (code "D02") derives Group "Other Veg", the later one
(code "E02") derives "Fruits".  Under the "Fruits" filter the name
"Mango" IS offered by the item selectbox, yet resolution returns the
earlier record of the FULL Dataset — a record that is not in the
candidate set and whose Group differs from the filter. -/
theorem duplicate_name_lookup_ignores_filter :
    (some "Mango" ∈ uniqueNames (filterByGroup dfMango "Fruits")) ∧
    resolveRender dfMango (some "Mango") =
      RenderOutcome.shown (normalizeRecord recMangoD) ∧
    (normalizeRecord recMangoD).group = some "Other Veg" ∧
    (normalizeRecord recMangoD).group ≠ some "Fruits" ∧
    ((normalizeRecord recMangoD) ∉ filterByGroup dfMango "Fruits") := by
  decide

/-- C2 as amended: resolution deterministically picks the first record
of the FULL Dataset (in source order, no re-sorting) whose name equals
the chosen name, ignoring the category filter; the resolved record lies
in the candidate set — and under a non-"All" filter has the filter's
Group — only when every Dataset record sharing the chosen name does
(as in the spec's scenario 3, where both "Mango" codes are prefixed
"E"). -/
theorem resolveRender_first_match_in_dataset (df : List Record)
    (s : String) (r0 : Record) (hs : s ≠ "")
    (h : (df.filter (fun r => r.name == some s)).head? = some r0) :
    resolveRender df (some s) = RenderOutcome.shown r0 ∧
    r0.name = some s ∧
    (∃ l1 l2, df = l1 ++ r0 :: l2 ∧ ∀ r ∈ l1, r.name ≠ some s) ∧
    (∀ g, (∀ r ∈ df, r.name = some s → r.group = some g) →
      r0.group = some g) := by
  obtain ⟨hp0, l1, l2, hl, hl1⟩ := filter_head_decomp h
  have hname : r0.name = some s := by simpa using hp0
  have hmem : r0 ∈ df := by rw [hl]; simp
  refine ⟨?_, hname, ⟨l1, l2, hl, ?_⟩, ?_⟩
  · simp only [resolveRender]
    rw [if_neg hs, h]
  · intro r hr
    simpa using hl1 r hr
  · intro g hg
    exact hg r0 hmem hname

/-- Witness for the amended C2 on the duplicated-Mango Dataset: the
resolved record is the first "Mango" of the Dataset, the Dataset splits
around it with no earlier "Mango", and the group transfer applies. -/
theorem resolveRender_first_match_in_dataset_witness :
    resolveRender dfMango (some "Mango") =
      RenderOutcome.shown (normalizeRecord recMangoD) ∧
    (normalizeRecord recMangoD).name = some "Mango" ∧
    (∃ l1 l2, dfMango = l1 ++ (normalizeRecord recMangoD) :: l2 ∧
      ∀ r ∈ l1, r.name ≠ some "Mango") ∧
    (∀ g, (∀ r ∈ dfMango, r.name = some "Mango" → r.group = some g) →
      (normalizeRecord recMangoD).group = some g) :=
  resolveRender_first_match_in_dataset dfMango "Mango"
    (normalizeRecord recMangoD) (by decide) (by decide)

/-- Counterexample to C6: the presenter reads `protcnt` by direct
indexing (`item['protcnt']`, src/app.py line 125), not through
`get(field, 0)`; on a resolved record lacking that column the read
raises `KeyError` and rendering fails instead of presenting 0. -/
theorem direct_indexing_crashes_on_absent_field :
    (("protcnt", Access.direct) ∈ presenterFields) ∧
    renderValue (normalizeRecord recApple) "protcnt" Access.direct = none := by
  decide

/-- C6 as amended: only the fields the presenter reads through
`item.get(field, 0)` are protected — such a read always succeeds and an
absent field presents as 0 — while the fields read by direct indexing
(energy, the four macros, the nine minerals, and the core water-soluble
vitamins) make rendering fail with `KeyError` when absent. -/
theorem renderValue_policy (r : Record) (k : String) :
    ((k, Access.getDefault) ∈ presenterFields →
      (renderValue r k Access.getDefault).isSome = true ∧
      (r.nums.lookup k = none →
        renderValue r k Access.getDefault = some (some 0))) ∧
    ((k, Access.direct) ∈ presenterFields → r.nums.lookup k = none →
      renderValue r k Access.direct = none) := by
  constructor
  · intro _
    refine ⟨by simp [renderValue], ?_⟩
    intro h
    simp [renderValue, h]
  · intro _ h
    simp [renderValue, h]

/-- Witness for the amended C6: on the normalized Apple record (which
carries no numeric columns) the protected field "starch" renders as 0
while the directly-indexed field "protcnt" makes rendering fail. -/
theorem renderValue_policy_witness :
    ((renderValue (normalizeRecord recApple) "starch" Access.getDefault).isSome
        = true ∧
      ((normalizeRecord recApple).nums.lookup "starch" = none →
        renderValue (normalizeRecord recApple) "starch" Access.getDefault
          = some (some 0))) ∧
    renderValue (normalizeRecord recApple) "protcnt" Access.direct = none :=
  ⟨(renderValue_policy (normalizeRecord recApple) "starch").1 (by decide),
   (renderValue_policy (normalizeRecord recApple) "protcnt").2
     (by decide) (by decide)⟩
